import Mathlib

/-!
Shallow embedding of `commute_check.py`, a commute-delay alert utility.

The program has three parts:
* `tomtom_route_summary` — normalises a routing-provider JSON response into
  either a tagged failure or a summary `(travel_sec, no_traffic_sec, delay_sec)`;
* an alert decider inside `main` — converts the summary into ceiling-rounded
  minute values and a delay percentage, and compares them to two thresholds;
* a daily-dedupe marker file plus a Mailjet send, also inside `main`.

Machine-level details are embedded as follows: Python ints become `Int`
(they are unbounded in Python too); Python float arithmetic in the decider
(`delay / no_traffic * 100.0`, `math.ceil(x / 60)`) becomes exact `ℚ`
arithmetic; dictionary fields that may be absent become `Option`;
exceptions become an explicit `raise` outcome; the marker file becomes an
`Option String` (its contents, `none` when the file does not exist); the
environment becomes `Option String` fields, and Python's truthiness test on
`os.getenv` (`None` and `""` are both falsy) becomes `envTruthy`.
-/

namespace CommuteCheck

/-- The `summary` object of a route in the provider's JSON response.
Each field is an integer number of seconds and may be absent
(`summary.get(...)` in the source). -/
structure TomSummary where
  travelTimeInSeconds : Option Int
  noTrafficTravelTimeInSeconds : Option Int
  trafficDelayInSeconds : Option Int
deriving DecidableEq, Repr

/-- One element of the `routes` array; its `summary` member may be absent
(`routes[0].get("summary") or {}` in the source). -/
structure TomRoute where
  summary : Option TomSummary
deriving DecidableEq, Repr

/-- The JSON body of the routing response; the `routes` array may be absent
(`data.get("routes") or []` in the source). -/
structure TomResponse where
  routes : Option (List TomRoute)
deriving DecidableEq, Repr

/-- The result dictionary of `tomtom_route_summary`: either
`{"ok": False, "reason": ...}` or
`{"ok": True, "travel_sec": ..., "no_traffic_sec": ..., "delay_sec": ...}`. -/
inductive RouteResult
  | fail (reason : String)
  | ok (travel_sec no_traffic_sec delay_sec : Int)
deriving DecidableEq, Repr

/-- The empty summary dictionary used when `routes[0].get("summary")` is
falsy. -/
def emptySummary : TomSummary := ⟨none, none, none⟩

/-- Embedding of `tomtom_route_summary` (src/commute_check.py lines 29–48),
after the HTTP layer: the function of the parsed JSON body.
Python's `no_traffic or travel` is truthiness on an int: it yields `travel`
exactly when `no_traffic = 0` (a negative int is truthy). -/
def tomtom_route_summary (data : TomResponse) : RouteResult :=
  let routes := data.routes.getD []
  match routes with
  | [] => .fail "No routes returned"
  | r0 :: _ =>
    let summary := r0.summary.getD emptySummary
    let travel := summary.travelTimeInSeconds.getD 0
    let no_traffic := summary.noTrafficTravelTimeInSeconds.getD 0
    let delay := summary.trafficDelayInSeconds.getD
      (max 0 (travel - (if no_traffic = 0 then travel else no_traffic)))
    if travel ≤ 0 then .fail "Invalid travel time in response"
    else
      let no_traffic2 := if no_traffic ≤ 0 then travel else no_traffic
      .ok travel no_traffic2 (max 0 delay)

/-- The quantities the alert decider computes from a summary
(src/commute_check.py lines 116–128). -/
structure Decision where
  travel_min : Int
  no_traffic_min : Int
  delay_min : Int
  delay_pct : ℚ
  is_bad : Bool
deriving DecidableEq, Repr

/-- Embedding of the alert-decision block of `main`
(src/commute_check.py lines 116–128): minute values are
`math.ceil(x / 60)`, the percentage is `(delay / no_traffic) * 100.0`
guarded by truthiness of `no_traffic` (`if no_traffic`), and the verdict is
the disjunction of the two threshold comparisons. -/
def decide_alert (travel no_traffic delay : Int) (thresh_min : Int)
    (thresh_pct : ℚ) : Decision :=
  let travel_min : Int := ⌈(travel : ℚ) / 60⌉
  let no_traffic_min : Int := ⌈(no_traffic : ℚ) / 60⌉
  let delay_min : Int := if 0 < delay then ⌈(delay : ℚ) / 60⌉ else 0
  let delay_pct : ℚ := if no_traffic ≠ 0 then (delay : ℚ) / (no_traffic : ℚ) * 100 else 0
  let is_bad : Bool := decide (thresh_min ≤ delay_min) || decide (thresh_pct ≤ delay_pct)
  ⟨travel_min, no_traffic_min, delay_min, delay_pct, is_bad⟩

/-- Embedding of Python's `str.strip()` (no argument): remove whitespace
characters from both ends of the string. -/
def strip (s : String) : String :=
  ⟨((s.data.dropWhile Char.isWhitespace).reverse.dropWhile Char.isWhitespace).reverse⟩

/-- Embedding of `already_alerted_today` (src/commute_check.py lines 74–80).
The marker file is modelled by its contents, `none` when the file does not
exist; `f.read().strip() == today_key` becomes `strip contents == today_key`. -/
def already_alerted_today (marker : Option String) (today_key : String) : Bool :=
  match marker with
  | none => false
  | some contents => strip contents == today_key

/-- Embedding of `mark_alerted_today` (src/commute_check.py lines 83–87):
writes `today_key` to the marker file, overwriting any prior contents. -/
def mark_alerted_today (_marker : Option String) (today_key : String) : Option String :=
  some today_key

/-- Embedding of `mailjet_send` (src/commute_check.py lines 51–71), reduced
to its control flow: given the provider's HTTP status code, it raises
(`Except.error`) exactly when the status is ≥ 400, and returns normally
otherwise. -/
def mailjet_send (status : Nat) : Except String Unit :=
  if 400 ≤ status then .error ("Mailjet error " ++ toString status) else .ok ()

/-- Python truthiness of `os.getenv(k)`: `None` (variable unset) and the
empty string are falsy; every other string is truthy. -/
def envTruthy (v : Option String) : Bool :=
  match v with
  | none => false
  | some s => !s.isEmpty

/-- The inputs `main` draws from its environment: the relevant environment
variables (each `Option String`, `none` when unset), the outcomes of the
fallible steps (coordinate/threshold parsing, the routing HTTP transport),
the parsed routing response body, the parsed threshold values, today's date
key, the marker-file contents, and the HTTP status the email provider would
answer with if the send is attempted. -/
structure MainInput where
  tomtom_api_key : Option String
  origin_lat : Option String
  origin_lng : Option String
  dest_lat : Option String
  dest_lng : Option String
  coordsOk : Bool
  threshOk : Bool
  delay_thresh_min : Int
  delay_thresh_pct : ℚ
  httpOk : Bool
  response : TomResponse
  today_key : String
  marker : Option String
  mj_pub : Option String
  mj_priv : Option String
  email_to : Option String
  email_from : Option String
  sendStatus : Nat
deriving DecidableEq, Repr

/-- How a run of `main` ends: `exit code` for `return code`, `raise` for an
uncaught exception. -/
inductive Outcome
  | exit (code : Int)
  | raise
deriving DecidableEq, Repr

/-- Observable trace of one run of `main`: how it ended, whether the routing
request was issued, whether the email send was attempted, and the final
marker-file contents. -/
structure MainTrace where
  outcome : Outcome
  tomtomCalled : Bool
  sendCalled : Bool
  marker : Option String
deriving DecidableEq, Repr

/-- All five required environment variables are truthy
(src/commute_check.py lines 91–96: `missing` is empty). -/
def requiredPresent (inp : MainInput) : Bool :=
  envTruthy inp.tomtom_api_key && envTruthy inp.origin_lat &&
    envTruthy inp.origin_lng && envTruthy inp.dest_lat && envTruthy inp.dest_lng

/-- All four Mailjet credential/address variables are truthy
(src/commute_check.py line 148: `mj_pub and mj_priv and email_to and email_from`). -/
def credsPresent (inp : MainInput) : Bool :=
  envTruthy inp.mj_pub && envTruthy inp.mj_priv &&
    envTruthy inp.email_to && envTruthy inp.email_from

/-- Embedding of `main` (src/commute_check.py lines 90–163), following the
source order: required-variable check (exit 2), coordinate parsing (may
raise), threshold parsing (may raise), the routing call (may raise; this is
the first network call), `tomtom_route_summary` normalisation (failure →
exit 0), the alert decider, the `is_bad` verdict (false → exit 0), the
daily-dedupe check (already alerted → exit 0), the credential check
(missing → exit 0 without sending), then `mailjet_send` (HTTP error →
raise, marker untouched) and `mark_alerted_today` on success. -/
def main (inp : MainInput) : MainTrace :=
  if !requiredPresent inp then
    ⟨.exit 2, false, false, inp.marker⟩
  else if !inp.coordsOk then
    ⟨.raise, false, false, inp.marker⟩
  else if !inp.threshOk then
    ⟨.raise, false, false, inp.marker⟩
  else if !inp.httpOk then
    ⟨.raise, true, false, inp.marker⟩
  else
    match tomtom_route_summary inp.response with
    | .fail _ => ⟨.exit 0, true, false, inp.marker⟩
    | .ok travel no_traffic delay =>
      let d := decide_alert travel no_traffic delay
        inp.delay_thresh_min inp.delay_thresh_pct
      if !d.is_bad then
        ⟨.exit 0, true, false, inp.marker⟩
      else if already_alerted_today inp.marker inp.today_key then
        ⟨.exit 0, true, false, inp.marker⟩
      else if !credsPresent inp then
        ⟨.exit 0, true, false, inp.marker⟩
      else
        match mailjet_send inp.sendStatus with
        | .error _ => ⟨.raise, true, true, inp.marker⟩
        | .ok _ => ⟨.exit 0, true, true, mark_alerted_today inp.marker inp.today_key⟩

end CommuteCheck

namespace CommuteCheck

/-- C1: For every valid RouteSummary (`travel_sec > 0`, `no_traffic_sec > 0`,
`delay_sec ≥ 0`) and every pair of thresholds, the alert decider computes
`travel_min = ⌈travel_sec/60⌉`, `no_traffic_min = ⌈no_traffic_sec/60⌉`,
`delay_min = ⌈delay_sec/60⌉` when `delay_sec > 0` and `0` otherwise,
`delay_pct = delay_sec / no_traffic_sec * 100`, and its verdict is an alert
exactly when `delay_min ≥ threshold_min` or `delay_pct ≥ threshold_pct`. -/
theorem alert_decider_spec (travel no_traffic delay thresh_min : Int)
    (thresh_pct : ℚ) (_htravel : 0 < travel) (hno : 0 < no_traffic)
    (_hdelay : 0 ≤ delay) :
    (decide_alert travel no_traffic delay thresh_min thresh_pct).travel_min =
        ⌈(travel : ℚ) / 60⌉ ∧
    (decide_alert travel no_traffic delay thresh_min thresh_pct).no_traffic_min =
        ⌈(no_traffic : ℚ) / 60⌉ ∧
    (decide_alert travel no_traffic delay thresh_min thresh_pct).delay_min =
        (if 0 < delay then ⌈(delay : ℚ) / 60⌉ else 0) ∧
    (decide_alert travel no_traffic delay thresh_min thresh_pct).delay_pct =
        (delay : ℚ) / (no_traffic : ℚ) * 100 ∧
    ((decide_alert travel no_traffic delay thresh_min thresh_pct).is_bad = true ↔
      thresh_min ≤ (decide_alert travel no_traffic delay thresh_min thresh_pct).delay_min ∨
        thresh_pct ≤ (decide_alert travel no_traffic delay thresh_min thresh_pct).delay_pct) := by
  refine ⟨rfl, rfl, rfl, ?_, ?_⟩
  · simp [decide_alert, hno.ne']
  · simp [decide_alert, Bool.or_eq_true, decide_eq_true_iff]

/-- C1 witness: the spec's worked example `travel_sec = 1800`,
`no_traffic_sec = 1200`, `delay_sec = 600`, thresholds `(15, 30)`. -/
theorem alert_decider_spec_witness :
    (decide_alert 1800 1200 600 15 30).travel_min = ⌈(1800 : ℚ) / 60⌉ ∧
    (decide_alert 1800 1200 600 15 30).no_traffic_min = ⌈(1200 : ℚ) / 60⌉ ∧
    (decide_alert 1800 1200 600 15 30).delay_min =
        (if (0 : Int) < 600 then ⌈(600 : ℚ) / 60⌉ else 0) ∧
    (decide_alert 1800 1200 600 15 30).delay_pct = (600 : ℚ) / 1200 * 100 ∧
    ((decide_alert 1800 1200 600 15 30).is_bad = true ↔
      (15 : Int) ≤ (decide_alert 1800 1200 600 15 30).delay_min ∨
        (30 : ℚ) ≤ (decide_alert 1800 1200 600 15 30).delay_pct) :=
  alert_decider_spec 1800 1200 600 15 30 (by norm_num) (by norm_num) (by norm_num)

/-- C2: For every routing-provider response, `tomtom_route_summary` returns
either a tagged failure carrying a reason string, or a fully-populated
summary with `travel_sec > 0`, `no_traffic_sec > 0` and `delay_sec ≥ 0` —
never partially populated data. -/
theorem tomtom_summary_invariant (data : TomResponse) :
    (∃ reason, tomtom_route_summary data = .fail reason) ∨
    (∃ t n d, tomtom_route_summary data = .ok t n d ∧
      0 < t ∧ 0 < n ∧ 0 ≤ d) := by
  rcases data with ⟨routes⟩
  rcases routes with _ | (_ | ⟨r0, rest⟩)
  · exact Or.inl ⟨_, rfl⟩
  · exact Or.inl ⟨_, rfl⟩
  · simp only [tomtom_route_summary, Option.getD_some]
    split_ifs <;>
      first
        | exact Or.inl ⟨_, rfl⟩
        | exact Or.inr ⟨_, _, _, rfl, by omega, by omega, le_max_left 0 _⟩

/-- C5: an empty or absent `routes` list yields the failure
`"No routes returned"`, and a first route whose (defaulted) traffic-aware
travel time is non-positive yields the failure
`"Invalid travel time in response"`. -/
theorem tomtom_failure_reasons :
    (∀ data : TomResponse, (data.routes = none ∨ data.routes = some []) →
      tomtom_route_summary data = .fail "No routes returned") ∧
    (∀ (data : TomResponse) (r0 : TomRoute) (rest : List TomRoute),
      data.routes = some (r0 :: rest) →
      (r0.summary.getD emptySummary).travelTimeInSeconds.getD 0 ≤ 0 →
      tomtom_route_summary data = .fail "Invalid travel time in response") := by
  constructor
  · rintro ⟨routes⟩ (rfl | rfl) <;> rfl
  · rintro ⟨routes⟩ r0 rest rfl htravel
    simp only [tomtom_route_summary, Option.getD_some]
    rw [if_pos htravel]

/-- C5 witness: an empty routes list, and a first route with
`travelTimeInSeconds = 0`. -/
theorem tomtom_failure_reasons_witness :
    tomtom_route_summary ⟨some []⟩ = .fail "No routes returned" ∧
    tomtom_route_summary ⟨some [⟨some ⟨some 0, none, none⟩⟩]⟩ =
      .fail "Invalid travel time in response" :=
  ⟨tomtom_failure_reasons.1 ⟨some []⟩ (Or.inr rfl),
   tomtom_failure_reasons.2 ⟨some [⟨some ⟨some 0, none, none⟩⟩]⟩
     ⟨some ⟨some 0, none, none⟩⟩ [] rfl (by decide)⟩

/-- C3 counterexample: a first route with a positive traffic-aware time
(100 s), a *negative* traffic-free time (−50 s) and no
`trafficDelayInSeconds` field. The traffic-aware time is substituted for
the traffic-free one as claimed, but the returned `delay_sec` is 150, not 0:
Python's `no_traffic or travel` treats the negative value as truthy, so the
default delay is `max(0, 100 − (−50)) = 150`. -/
theorem tomtom_substitution_counterexample :
    tomtom_route_summary ⟨some [⟨some ⟨some 100, some (-50), none⟩⟩]⟩ =
      .ok 100 100 150 ∧ (150 : Int) ≠ 0 := by decide

/-- C3 amended: with a positive traffic-aware time and no
`trafficDelayInSeconds` field, if the traffic-free time is absent or zero
the traffic-aware time is substituted and `delay_sec = 0`; if it is
negative the substitution still happens but
`delay_sec = travel − no_traffic > 0`. -/
theorem tomtom_substitution_amended (s : TomSummary) (rest : List TomRoute)
    (travel : Int) (htravel : s.travelTimeInSeconds = some travel)
    (hpos : 0 < travel) (hdelay : s.trafficDelayInSeconds = none) :
    ((s.noTrafficTravelTimeInSeconds = none ∨
        s.noTrafficTravelTimeInSeconds = some 0) →
      tomtom_route_summary ⟨some (⟨some s⟩ :: rest)⟩ = .ok travel travel 0) ∧
    (∀ nt, s.noTrafficTravelTimeInSeconds = some nt → nt < 0 →
      tomtom_route_summary ⟨some (⟨some s⟩ :: rest)⟩ =
        .ok travel travel (travel - nt)) := by
  obtain ⟨f1, f2, f3⟩ := s
  cases htravel
  cases hdelay
  constructor
  · rintro (rfl | rfl) <;>
      · simp only [tomtom_route_summary, Option.getD_some, Option.getD_none]
        rw [if_neg (by omega), if_pos (by omega)]
        simp
  · rintro nt rfl hnt
    simp only [tomtom_route_summary, Option.getD_some, Option.getD_none]
    rw [if_neg (by omega), if_pos (by omega), if_neg (by omega)]
    congr 1
    omega

/-- C3 amended, witness: the zero case (100 s traffic-aware, 0 s
traffic-free) gives `delay_sec = 0`; the negative case (100 s traffic-aware,
−50 s traffic-free) gives `delay_sec = 150`. -/
theorem tomtom_substitution_amended_witness :
    tomtom_route_summary ⟨some [⟨some ⟨some 100, some 0, none⟩⟩]⟩ =
      .ok 100 100 0 ∧
    tomtom_route_summary ⟨some [⟨some ⟨some 100, some (-50), none⟩⟩]⟩ =
      .ok 100 100 150 := by
  constructor
  · exact (tomtom_substitution_amended ⟨some 100, some 0, none⟩ [] 100 rfl
      (by norm_num) rfl).1 (Or.inr rfl)
  · have h := (tomtom_substitution_amended ⟨some 100, some (-50), none⟩ [] 100 rfl
      (by norm_num) rfl).2 (-50) rfl (by norm_num)
    norm_num at h
    exact h

/-- C4 counterexample: a first route with `travel = 100 > 0`,
`no_traffic = 50 ≤ travel` and a *present* `trafficDelayInSeconds = −7`.
The claim says `delay_sec` is taken from that field, i.e. −7, but the code
clamps it: `delay_sec = max(0, −7) = 0`. -/
theorem tomtom_delay_field_counterexample :
    tomtom_route_summary ⟨some [⟨some ⟨some 100, some 50, some (-7)⟩⟩]⟩ =
      .ok 100 50 0 ∧ (0 : Int) ≠ -7 := by decide

/-- C4 amended: under positive `travel`, positive `no_traffic ≤ travel`:
with no `trafficDelayInSeconds` field, `delay_sec = travel − no_traffic`;
with the field present with value `dl`, `delay_sec = max 0 dl` (the
provider's value clamped at zero, not the raw value). -/
theorem tomtom_delay_amended (s : TomSummary) (rest : List TomRoute)
    (travel no_traffic : Int) (htravel : s.travelTimeInSeconds = some travel)
    (hpos : 0 < travel)
    (hno : s.noTrafficTravelTimeInSeconds = some no_traffic)
    (hnopos : 0 < no_traffic) (hle : no_traffic ≤ travel) :
    (s.trafficDelayInSeconds = none →
      tomtom_route_summary ⟨some (⟨some s⟩ :: rest)⟩ =
        .ok travel no_traffic (travel - no_traffic)) ∧
    (∀ dl, s.trafficDelayInSeconds = some dl →
      tomtom_route_summary ⟨some (⟨some s⟩ :: rest)⟩ =
        .ok travel no_traffic (max 0 dl)) := by
  obtain ⟨f1, f2, f3⟩ := s
  cases htravel
  cases hno
  constructor
  · rintro rfl
    simp only [tomtom_route_summary, Option.getD_some, Option.getD_none]
    rw [if_neg (by omega), if_neg (by omega), if_neg (by omega)]
    congr 1
    omega
  · rintro dl rfl
    simp only [tomtom_route_summary, Option.getD_some]
    rw [if_neg (by omega), if_neg (by omega)]

/-- C4 amended, witness: `travel = 100`, `no_traffic = 40`: with the field
absent, `delay_sec = 60`; with the field present with value −7,
`delay_sec = 0`. -/
theorem tomtom_delay_amended_witness :
    tomtom_route_summary ⟨some [⟨some ⟨some 100, some 40, none⟩⟩]⟩ =
      .ok 100 40 60 ∧
    tomtom_route_summary ⟨some [⟨some ⟨some 100, some 40, some (-7)⟩⟩]⟩ =
      .ok 100 40 0 := by
  constructor
  · have h := (tomtom_delay_amended ⟨some 100, some 40, none⟩ [] 100 40 rfl
      (by norm_num) rfl (by norm_num) (by norm_num)).1 rfl
    norm_num at h
    exact h
  · have h := (tomtom_delay_amended ⟨some 100, some 40, some (-7)⟩ [] 100 40 rfl
      (by norm_num) rfl (by norm_num) (by norm_num)).2 (-7) rfl
    norm_num at h
    exact h

/-- C6: the dedupe marker round-trips. With no marker file,
`already_alerted_today` is false; after `mark_alerted_today` with a date
key, `already_alerted_today` with the same key is true, whatever the prior
marker contents. The hypothesis `strip key = key` holds for every date key
(a `YYYY-MM-DD` string contains no whitespace); it is needed because the
read side strips the file contents while the write side stores the key
verbatim. -/
theorem dedupe_roundtrip (prior : Option String) (key : String)
    (hkey : strip key = key) :
    already_alerted_today none key = false ∧
    already_alerted_today (mark_alerted_today prior key) key = true := by
  refine ⟨rfl, ?_⟩
  simp [already_alerted_today, mark_alerted_today, hkey]

/-- C6 witness: prior marker `"2025-01-01"`, key `"2026-10-12"`. -/
theorem dedupe_roundtrip_witness :
    already_alerted_today none "2026-10-12" = false ∧
    already_alerted_today
      (mark_alerted_today (some "2025-01-01") "2026-10-12") "2026-10-12" = true :=
  dedupe_roundtrip (some "2025-01-01") "2026-10-12" (by decide)

/-- C10: the verdict is monotone in the delay. For fixed positive
`no_traffic` and fixed thresholds, if the verdict is an alert at delay `d`,
it is an alert at every delay `d' ≥ d`: both the ceiling-rounded delay
minutes and the delay percentage are nondecreasing in the delay, and the
verdict is a disjunction of `≥` comparisons on them. -/
theorem verdict_monotone (travel no_traffic d d' thresh_min : Int)
    (thresh_pct : ℚ) (hno : 0 < no_traffic) (hdd : d ≤ d')
    (h : (decide_alert travel no_traffic d thresh_min thresh_pct).is_bad = true) :
    (decide_alert travel no_traffic d' thresh_min thresh_pct).is_bad = true := by
  have hcast : (d : ℚ) ≤ (d' : ℚ) := by exact_mod_cast hdd
  have hnoq : (0 : ℚ) < (no_traffic : ℚ) := by exact_mod_cast hno
  have hmin : (if 0 < d then ⌈(d : ℚ) / 60⌉ else 0) ≤
      (if 0 < d' then ⌈(d' : ℚ) / 60⌉ else 0) := by
    split_ifs with h1 h2 h2
    · exact Int.ceil_le_ceil (by gcongr)
    · omega
    · refine Int.ceil_nonneg ?_
      positivity
    · exact le_refl 0
  have hpct : (d : ℚ) / (no_traffic : ℚ) * 100 ≤
      (d' : ℚ) / (no_traffic : ℚ) * 100 := by gcongr
  simp only [decide_alert, Bool.or_eq_true, decide_eq_true_iff] at h ⊢
  rw [if_pos hno.ne'] at h ⊢
  rcases h with h | h
  · left
    exact le_trans h hmin
  · right
    exact le_trans h hpct

/-- C10 witness: `no_traffic = 1200`, thresholds `(15, 30)`: the verdict is
an alert at delay 600 s, hence also at 900 s. -/
theorem verdict_monotone_witness :
    (decide_alert 1800 1200 900 15 30).is_bad = true :=
  verdict_monotone 1800 1200 600 900 15 30 (by norm_num) (by norm_num)
    (by norm_num [decide_alert])

/-- Helper: once a run has passed the configuration checks, the fallible
parses, the routing call, the summary normalisation and a true alert
verdict, `main` reduces to the dedupe/credentials/send chain. -/
theorem main_alert_stage (inp : MainInput)
    (h1 : requiredPresent inp = true) (h2 : inp.coordsOk = true)
    (h3 : inp.threshOk = true) (h4 : inp.httpOk = true)
    (t n d : Int) (htom : tomtom_route_summary inp.response = .ok t n d)
    (hbad : (decide_alert t n d inp.delay_thresh_min
      inp.delay_thresh_pct).is_bad = true) :
    main inp =
      if already_alerted_today inp.marker inp.today_key then
        ⟨.exit 0, true, false, inp.marker⟩
      else if !credsPresent inp then
        ⟨.exit 0, true, false, inp.marker⟩
      else if 400 ≤ inp.sendStatus then
        ⟨.raise, true, true, inp.marker⟩
      else
        ⟨.exit 0, true, true, some inp.today_key⟩ := by
  by_cases ha : already_alerted_today inp.marker inp.today_key = true
  · simp [main, h1, h2, h3, h4, htom, hbad, ha]
  · by_cases hc : credsPresent inp = true
    · by_cases hs : 400 ≤ inp.sendStatus
      · simp [main, h1, h2, h3, h4, htom, hbad, ha, hc, hs, mailjet_send]
      · simp [main, h1, h2, h3, h4, htom, hbad, ha, hc, hs, mailjet_send,
          mark_alerted_today]
    · simp [main, h1, h2, h3, h4, htom, hbad, ha, hc]

/-- C7: if any required setting (API key or a coordinate) is missing, `main`
exits with code 2 having made no network call; if all required settings are
present, every run either raises or exits with code 0. -/
theorem exit_codes (inp : MainInput) :
    (requiredPresent inp = false →
      main inp = ⟨.exit 2, false, false, inp.marker⟩) ∧
    (requiredPresent inp = true →
      (main inp).outcome = .raise ∨ (main inp).outcome = .exit 0) := by
  constructor
  · intro h
    simp [main, h]
  · intro h
    rcases htom : tomtom_route_summary inp.response with reason | ⟨t, n, d⟩ <;>
      simp only [main, h, htom, mailjet_send, Bool.not_true, Bool.not_false,
        Bool.false_eq_true, if_false] <;>
      split_ifs <;>
      simp

/-- C7 witness: with the API key unset, `main` exits 2 without any network
call; with all required settings present, it exits 0 or raises. -/
theorem exit_codes_witness :
    main ⟨none, some "1", some "2", some "3", some "4", true, true, 15, 30,
        true, ⟨none⟩, "2026-10-12", none, none, none, none, none, 200⟩ =
      ⟨.exit 2, false, false, none⟩ ∧
    ((main ⟨some "k", some "1", some "2", some "3", some "4", true, true, 15,
        30, true, ⟨none⟩, "2026-10-12", none, none, none, none, none, 200⟩).outcome =
          .raise ∨
      (main ⟨some "k", some "1", some "2", some "3", some "4", true, true, 15,
        30, true, ⟨none⟩, "2026-10-12", none, none, none, none, none, 200⟩).outcome =
          .exit 0) :=
  ⟨(exit_codes _).1 (by decide), (exit_codes _).2 (by decide)⟩

/-- C8: in a run with a true alert verdict, if the marker already equals
today's date key `main` exits 0 without sending; if it differs or is absent
but a Mailjet credential/address is missing, `main` exits 0 without sending
and without touching the marker; and the send is attempted only when the
marker does not match today and all four credentials are present. -/
theorem alert_skip_paths (inp : MainInput)
    (h1 : requiredPresent inp = true) (h2 : inp.coordsOk = true)
    (h3 : inp.threshOk = true) (h4 : inp.httpOk = true)
    (t n d : Int) (htom : tomtom_route_summary inp.response = .ok t n d)
    (hbad : (decide_alert t n d inp.delay_thresh_min
      inp.delay_thresh_pct).is_bad = true) :
    (already_alerted_today inp.marker inp.today_key = true →
      main inp = ⟨.exit 0, true, false, inp.marker⟩) ∧
    (already_alerted_today inp.marker inp.today_key = false →
      credsPresent inp = false →
      main inp = ⟨.exit 0, true, false, inp.marker⟩) ∧
    ((main inp).sendCalled = true →
      already_alerted_today inp.marker inp.today_key = false ∧
        credsPresent inp = true) := by
  rw [main_alert_stage inp h1 h2 h3 h4 t n d htom hbad]
  refine ⟨fun ha => by simp [ha], fun ha hc => by simp [ha, hc], ?_⟩
  by_cases ha : already_alerted_today inp.marker inp.today_key = true
  · simp [ha]
  · by_cases hc : credsPresent inp = true
    · by_cases hs : 400 ≤ inp.sendStatus <;>
        simp_all
    · simp [ha, hc]

/-- C8 witness: a run reaching a true alert verdict
(`travel = 1800`, `no_traffic = 1200`, `delay = 600`, thresholds `(15, 30)`)
with the marker already equal to today exits 0 without sending; the same
run with no marker and missing Mailjet credentials also exits 0 without
sending and leaves the marker absent. -/
theorem alert_skip_paths_witness :
    main ⟨some "k", some "1", some "2", some "3", some "4", true, true, 15,
        30, true, ⟨some [⟨some ⟨some 1800, some 1200, none⟩⟩]⟩, "2026-10-12",
        some "2026-10-12", some "p", some "q", some "t", some "f", 200⟩ =
      ⟨.exit 0, true, false, some "2026-10-12"⟩ ∧
    main ⟨some "k", some "1", some "2", some "3", some "4", true, true, 15,
        30, true, ⟨some [⟨some ⟨some 1800, some 1200, none⟩⟩]⟩, "2026-10-12",
        none, none, some "q", some "t", some "f", 200⟩ =
      ⟨.exit 0, true, false, none⟩ :=
  ⟨(alert_skip_paths _ (by decide) rfl rfl rfl 1800 1200 600 (by decide)
      (by norm_num [decide_alert])).1 (by decide),
   (alert_skip_paths _ (by decide) rfl rfl rfl 1800 1200 600 (by decide)
      (by norm_num [decide_alert])).2.1 (by decide) (by decide)⟩

/-- C9: `mailjet_send` raises exactly when the provider's HTTP status is
≥ 400; in every run of `main` in which the send raises, the marker file is
left unchanged (and the run ends by raising); and in every run the marker
is either unchanged, or the send was attempted with a status < 400 and the
marker now holds today's date key, overwriting any prior value. -/
theorem marker_mutation (inp : MainInput) :
    ((∃ e, mailjet_send inp.sendStatus = .error e) ↔ 400 ≤ inp.sendStatus) ∧
    ((main inp).sendCalled = true → 400 ≤ inp.sendStatus →
      (main inp).outcome = .raise ∧ (main inp).marker = inp.marker) ∧
    ((main inp).marker = inp.marker ∨
      ((main inp).sendCalled = true ∧ inp.sendStatus < 400 ∧
        (main inp).marker = some inp.today_key)) := by
  refine ⟨?_, ?_, ?_⟩
  · constructor
    · rintro ⟨e, he⟩
      by_contra hs
      simp [mailjet_send, hs] at he
    · intro hs
      exact ⟨"Mailjet error " ++ toString inp.sendStatus,
        by simp [mailjet_send, hs]⟩
  · rcases htom : tomtom_route_summary inp.response with reason | ⟨t, n, d⟩ <;>
      simp only [main, htom, mailjet_send] <;>
      split_ifs <;>
      simp_all
  · rcases htom : tomtom_route_summary inp.response with reason | ⟨t, n, d⟩ <;>
      simp only [main, htom, mailjet_send, mark_alerted_today] <;>
      split_ifs <;>
      simp_all

/-- C9 witness: a run that reaches the send with provider status 500 raises
and leaves the marker at its prior value `"2025-01-01"`; the same run with
status 200 ends with the marker overwritten to today's key. -/
theorem marker_mutation_witness :
    ((main ⟨some "k", some "1", some "2", some "3", some "4", true, true, 15,
        30, true, ⟨some [⟨some ⟨some 1800, some 1200, none⟩⟩]⟩, "2026-10-12",
        some "2025-01-01", some "p", some "q", some "t", some "f",
        500⟩).outcome = .raise ∧
      (main ⟨some "k", some "1", some "2", some "3", some "4", true, true, 15,
        30, true, ⟨some [⟨some ⟨some 1800, some 1200, none⟩⟩]⟩, "2026-10-12",
        some "2025-01-01", some "p", some "q", some "t", some "f",
        500⟩).marker = some "2025-01-01") ∧
    ((main ⟨some "k", some "1", some "2", some "3", some "4", true, true, 15,
        30, true, ⟨some [⟨some ⟨some 1800, some 1200, none⟩⟩]⟩, "2026-10-12",
        some "2025-01-01", some "p", some "q", some "t", some "f",
        200⟩).marker = some "2025-01-01" ∨
      ((main ⟨some "k", some "1", some "2", some "3", some "4", true, true, 15,
        30, true, ⟨some [⟨some ⟨some 1800, some 1200, none⟩⟩]⟩, "2026-10-12",
        some "2025-01-01", some "p", some "q", some "t", some "f",
        200⟩).sendCalled = true ∧ (200 : ℕ) < 400 ∧
        (main ⟨some "k", some "1", some "2", some "3", some "4", true, true, 15,
          30, true, ⟨some [⟨some ⟨some 1800, some 1200, none⟩⟩]⟩, "2026-10-12",
          some "2025-01-01", some "p", some "q", some "t", some "f",
          200⟩).marker = some "2026-10-12")) := by
  constructor
  · refine (marker_mutation _).2.1 ?_ (by norm_num)
    rw [main_alert_stage _ (by decide) rfl rfl rfl 1800 1200 600 (by decide)
      (by norm_num [decide_alert])]
    decide
  · exact (marker_mutation _).2.2

end CommuteCheck
